import Mathlib

/-!
Shallow embedding of the `wezzapp-core` crate: the provider abstraction and
orchestration layer of the `wezzapp` weather CLI.  Network I/O (reqwest) is
modelled by explicit transport functions supplied as parameters; `anyhow`
error values are modelled by the inductive `WeatherError`, one constructor per
distinct error site in the source; Rust `f64` values are modelled by `Float`
(the code only copies them, it never computes with them); `u32` day offsets
are modelled by `Nat` (the only arithmetic on them is `+ 1`, far from
`u32::MAX` for every offset the claims consider).
-/

namespace Wezzapp

/-- Embedding of `Provider` from `provider.rs`: closed enumeration of supported providers. -/
inductive Provider where
  | weatherApi
  | accuWeather
deriving DecidableEq, Repr

/-- Embedding of `Provider::get_url` from `provider.rs` lines 11-19. -/
def Provider.get_url : Provider → String
  | .weatherApi => "https://api.openweathermap.org/data/2.5/"
  | .accuWeather => "https://dataservice.accuweather.com/"

/-- Embedding of `Credentials` from `credentials.rs`: one variant per provider, each holding
an API key string. -/
inductive Credentials where
  | weatherApi (api_key : String)
  | accuWeather (api_key : String)
deriving DecidableEq, Repr

/-- Embedding of `Credentials::provider` from `credentials.rs`. -/
def Credentials.provider : Credentials → Provider
  | .weatherApi _ => .weatherApi
  | .accuWeather _ => .accuWeather

/-- Failure of a network send / non-success HTTP status, the errors a reqwest
call can surface.  Kept abstract: the claims only need that such errors are a
kind of their own, distinct from every domain error. -/
inductive TransportError where
  | sendFailure (msg : String)
  | httpStatus (code : Nat)
deriving DecidableEq, Repr

/-- Failure reported by a `CredentialsStore` read (`anyhow::Result` from
`get_credentials` / `get_default_provider`). -/
inductive StoreError where
  | readFailure (msg : String)
deriving DecidableEq, Repr

/-- The `anyhow` error values produced by `wezzapp-core`, one constructor per
distinct error site:
* `invalidDateFormat` — "invalid date format (expected YYYY-MM-DD)" (`weather_service.rs`)
* `dateInPast` — "date is in the past" (`weather_service.rs`)
* `horizonExceeded msg` — the two `anyhow!` horizon messages in
  `weather_api.rs` / `accu_weather.rs`
* `noProviderConfigured` — "No provider specified and no default provider set …"
* `credentialsNotConfigured p` — "No credentials found for provider …"
* `credentialsProviderMismatch p` — "credentials type does not match provider …" (`apis/mod.rs`)
* `addressNotFound` — "Address not found, please, use more accurate address …" (`accu_weather.rs`)
* `wrongNumberOfDays` — "wrong number of days in API response"
* `transport e` / `storeReadError e` — wrapped transport / store failures. -/
inductive WeatherError where
  | invalidDateFormat
  | dateInPast
  | horizonExceeded (msg : String)
  | noProviderConfigured
  | credentialsNotConfigured (provider : Provider)
  | credentialsProviderMismatch (provider : Provider)
  | addressNotFound
  | wrongNumberOfDays
  | transport (e : TransportError)
  | storeReadError (e : StoreError)
deriving DecidableEq, Repr

/-- Embedding of `WeatherReport` from `apis/mod.rs`: the normalized result of a weather
query. -/
structure WeatherReport where
  provider : Provider
  date : String
  location : String
  description : String
  max_temperature : Float
  min_temperature : Float

/- ----------------------------------------------------------------- -/
/- WeatherApi client (`apis/weather_api.rs`)                          -/
/- ----------------------------------------------------------------- -/

/-- Embedding of `WeatherApiCondition` from `weather_api.rs`. -/
structure WeatherApiCondition where
  text : String

/-- Embedding of `WeatherApiDay` from `weather_api.rs`. -/
structure WeatherApiDay where
  maxtemp_c : Float
  mintemp_c : Float
  condition : WeatherApiCondition

/-- Embedding of `WeatherApiForecastDay` from `weather_api.rs`. -/
structure WeatherApiForecastDay where
  date : String
  day : WeatherApiDay

/-- Embedding of `WeatherApiLocation` from `weather_api.rs`. -/
structure WeatherApiLocation where
  name : String
  country : String

/-- Embedding of `WeatherApiForecast` from `weather_api.rs`. -/
structure WeatherApiForecast where
  forecastday : List WeatherApiForecastDay

/-- Embedding of `WeatherApiResponse` from `weather_api.rs`. -/
structure WeatherApiResponse where
  location : WeatherApiLocation
  forecast : WeatherApiForecast

/-- The query pairs the WeatherAPI client appends to its forecast URL
(`key`, `q`, `days`). -/
structure WeatherApiRequest where
  key : String
  q : String
  days : Nat
deriving DecidableEq, Repr

/-- A WeatherAPI HTTP transport: one GET of `forecast.json` with the given
query pairs, yielding either a transport-level failure or a decoded body. -/
def WeatherApiTransport : Type :=
  WeatherApiRequest → Except TransportError WeatherApiResponse

/-- Embedding of `WeatherApiClient` from `weather_api.rs` (the reqwest `Client` handle is
replaced by the explicit transport parameter of `get_weather`). -/
structure WeatherApiClient where
  api_key : String
  url : String

/-- Embedding of `WeatherApiClient::new` from `weather_api.rs` lines 17-25. -/
def WeatherApiClient.new (api_key : String) : WeatherApiClient :=
  { api_key := api_key, url := "https://api.weatherapi.com/v1/" }

/-- The horizon error message of `weather_api.rs` line 33. -/
def weatherApiHorizonMsg : String :=
  "WeatherAPI only supports up to 14 days forecast (including today)."

/-- Embedding of `WeatherApiClient::get_weather` from `weather_api.rs` lines 27-79:
`days = day_from_today + 1`; reject `days > 14`; one GET with query pairs
`key`, `q`, `days`; index `forecast.forecastday[day_from_today]`; translate
into `WeatherReport`. -/
def WeatherApiClient.get_weather (c : WeatherApiClient) (t : WeatherApiTransport)
    (address : String) (day_from_today : Nat) : Except WeatherError WeatherReport :=
  let days := day_from_today + 1
  if days > 14 then
    .error (.horizonExceeded weatherApiHorizonMsg)
  else
    match t { key := c.api_key, q := address, days := days } with
    | .error e => .error (.transport e)
    | .ok body =>
      match body.forecast.forecastday[day_from_today]? with
      | none => .error .wrongNumberOfDays
      | some forecast =>
        .ok { provider := .weatherApi
              date := forecast.date
              location := body.location.name ++ ", " ++ body.location.country
              description := forecast.day.condition.text
              max_temperature := forecast.day.maxtemp_c
              min_temperature := forecast.day.mintemp_c }

/- ----------------------------------------------------------------- -/
/- AccuWeather client (`apis/accu_weather.rs`)                        -/
/- ----------------------------------------------------------------- -/

/-- Embedding of `AccuWeatherCountryResponse` from `accu_weather.rs`. -/
structure AccuWeatherCountryResponse where
  localized_name : String

/-- Embedding of `AccuWeatherLocationResponse` from `accu_weather.rs`: one candidate
location returned by `locations/v1/search`. -/
structure AccuWeatherLocationResponse where
  key : String
  localized_name : String
  country : AccuWeatherCountryResponse

/-- Embedding of `AccuWeatherTemperatureValueResponse` from `accu_weather.rs`. -/
structure AccuWeatherTemperatureValueResponse where
  value : Float

/-- Embedding of `AccuWeatherTemperatureResponse` from `accu_weather.rs`. -/
structure AccuWeatherTemperatureResponse where
  minimum : AccuWeatherTemperatureValueResponse
  maximum : AccuWeatherTemperatureValueResponse

/-- Embedding of `AccuWeatherDayNightResponse` from `accu_weather.rs` (the source spells
the field `icon_prase`). -/
structure AccuWeatherDayNightResponse where
  icon_prase : String

/-- Embedding of `AccuWeatherDailyForecastResponse` from `accu_weather.rs`.  The `Date`
field is an RFC-3339 timestamp truncated to a calendar date on
deserialization; here it is kept as the resulting date string. -/
structure AccuWeatherDailyForecastResponse where
  date : String
  temperature : AccuWeatherTemperatureResponse
  day : AccuWeatherDayNightResponse
  night : AccuWeatherDayNightResponse

/-- Embedding of `AccuWeatherForecastResponse` from `accu_weather.rs`. -/
structure AccuWeatherForecastResponse where
  daily_forecasts : List AccuWeatherDailyForecastResponse

/-- An AccuWeather HTTP transport: the two GET endpoints the client uses.
Both requests carry the client's API key in a bearer `AUTHORIZATION` header,
so each transport function receives it alongside the endpoint-specific
parameter (`q` free-text address, forecast location key). -/
structure AccuWeatherTransport where
  search : (api_key : String) → (q : String) →
    Except TransportError (List AccuWeatherLocationResponse)
  forecast : (api_key : String) → (location_key : String) →
    Except TransportError AccuWeatherForecastResponse

/-- Embedding of `AccuWeatherClient` from `accu_weather.rs` (the reqwest `Client` handle is
replaced by the explicit transport parameter of the operations). -/
structure AccuWeatherClient where
  api_key : String
  url : String

/-- Embedding of `AccuWeatherClient::new` from `accu_weather.rs` lines 19-27. -/
def AccuWeatherClient.new (api_key : String) : AccuWeatherClient :=
  { api_key := api_key, url := "https://dataservice.accuweather.com/" }

/-- The horizon error message of `accu_weather.rs` line 73. -/
def accuWeatherHorizonMsg : String :=
  "AccuWeather API only supports up to 5 days forecast (including today)."

/-- Embedding of `AccuWeatherClient::get_location_key` from `accu_weather.rs` lines 29-64:
one GET of `locations/v1/search?q=address`; decode the candidate list;
`body.pop()` takes the LAST element, and an empty list is the
"Address not found" error. -/
def AccuWeatherClient.get_location_key (c : AccuWeatherClient)
    (t : AccuWeatherTransport) (address : String) :
    Except WeatherError AccuWeatherLocationResponse :=
  match t.search c.api_key address with
  | .error e => .error (.transport e)
  | .ok body =>
    match body.getLast? with
    | none => .error .addressNotFound
    | some location_key => .ok location_key

/-- The `WeatherReport` built in the success branch of
`AccuWeatherClient::get_weather`, `accu_weather.rs` lines 110-123: tagged
`Provider::WeatherApi`; location joins the resolved location's localized name
and its country's; description joins day and night icon phrases; and the
report's `max_temperature` copies the response `Temperature.Minimum.Value`
while `min_temperature` copies `Temperature.Maximum.Value`. -/
def accuWeatherReport (location : AccuWeatherLocationResponse)
    (forecast : AccuWeatherDailyForecastResponse) : WeatherReport :=
  { provider := .weatherApi
    date := forecast.date
    location := location.localized_name ++ ", " ++ location.country.localized_name
    description := "Day: " ++ forecast.day.icon_prase ++ ", Night: " ++ forecast.night.icon_prase
    max_temperature := forecast.temperature.minimum.value
    min_temperature := forecast.temperature.maximum.value }

/-- Embedding of `AccuWeatherClient::get_weather` from `accu_weather.rs` lines 66-124:
`days = day_from_today + 1`; reject `days > 5` before any network call; then
`get_location_key`; then one GET of `forecasts/v1/daily/5day/{key}`; index
`DailyForecasts[day_from_today]`; translate via `accuWeatherReport`.

Besides the result, the embedding returns how many location-search requests
and how many forecast requests were issued, so that "no network call is made"
is a provable statement. -/
def AccuWeatherClient.get_weather (c : AccuWeatherClient) (t : AccuWeatherTransport)
    (address : String) (day_from_today : Nat) :
    Except WeatherError WeatherReport × Nat × Nat :=
  let days := day_from_today + 1
  if days > 5 then
    (.error (.horizonExceeded accuWeatherHorizonMsg), 0, 0)
  else
    match c.get_location_key t address with
    | .error e => (.error e, 1, 0)
    | .ok location =>
      match t.forecast c.api_key location.key with
      | .error e => (.error (.transport e), 1, 1)
      | .ok body =>
        match body.daily_forecasts[day_from_today]? with
        | none => (.error .wrongNumberOfDays, 1, 1)
        | some forecast => (.ok (accuWeatherReport location forecast), 1, 1)

/- ----------------------------------------------------------------- -/
/- Provider client factory (`apis/mod.rs`)                            -/
/- ----------------------------------------------------------------- -/

/-- The `Box<dyn ProviderClient>` returned by the factory: which concrete
client was constructed, with the state it was constructed from
(`WeatherApiClient::new(api_key)` / `AccuWeatherClient::new(api_key)`). -/
inductive CreatedClient where
  | weatherApi (client : WeatherApiClient)
  | accuWeather (client : AccuWeatherClient)

/-- Embedding of `HttpProviderClientFactory::create_client` from `apis/mod.rs` lines 54-72:
matching (provider, credentials) pairs yield the corresponding concrete
client; any other pairing is the "credentials type does not match provider"
error, which names the requested provider. -/
def create_client (provider : Provider) (credentials : Credentials) :
    Except WeatherError CreatedClient :=
  match provider, credentials with
  | .weatherApi, .weatherApi api_key => .ok (.weatherApi (WeatherApiClient.new api_key))
  | .accuWeather, .accuWeather api_key => .ok (.accuWeather (AccuWeatherClient.new api_key))
  | _, _ => .error (.credentialsProviderMismatch provider)

/-- Embedding of `ProviderClient::get_weather` dispatched on the concrete client the
factory produced, each client given its transport. -/
def CreatedClient.get_weather (client : CreatedClient) (wt : WeatherApiTransport)
    (at_ : AccuWeatherTransport) (address : String) (days : Nat) :
    Except WeatherError WeatherReport :=
  match client with
  | .weatherApi c => c.get_weather wt address days
  | .accuWeather c => (c.get_weather at_ address days).1

/- ----------------------------------------------------------------- -/
/- Dates (`weather_service.rs`: `days_from_today`)                    -/
/- ----------------------------------------------------------------- -/

/-- A proleptic-Gregorian calendar date, the value a parsed
`chrono::NaiveDate` denotes. -/
structure Date where
  year : Int
  month : Nat
  day : Nat
deriving DecidableEq, Repr

/-- Gregorian leap-year rule. -/
def isLeapYear (y : Int) : Bool :=
  y % 4 == 0 && (y % 100 != 0 || y % 400 == 0)

/-- Length of month `m` of year `y`. -/
def daysInMonth (y : Int) (m : Nat) : Nat :=
  if m == 2 then (if isLeapYear y then 29 else 28)
  else if m == 4 || m == 6 || m == 9 || m == 11 then 30
  else 31

/-- Validity of a parsed year/month/day triple, the checks chrono performs
after scanning the fields: the month and day must form a real calendar date
of that year (`NaiveDate::from_ymd_opt`), and the year must lie in
`NaiveDate`'s representable range `MIN_YEAR = i32::MIN >> 13 = -262144` to
`MAX_YEAR = i32::MAX >> 13 = 262143` (chrono rejects years outside it when
resolving the parsed fields to a `NaiveDate`; the `i64`-overflow check of its
digit scanner and the `i64`-to-`i32` year conversion reject only values even
further out, so all three collapse to this one range check, every failure
surfacing as the same parse error). -/
def Date.valid (d : Date) : Bool :=
  -262144 ≤ d.year && d.year ≤ 262143
  && 1 ≤ d.month && d.month ≤ 12 && 1 ≤ d.day && d.day ≤ daysInMonth d.year d.month

/-- The day number of a date: days since 1970-01-01 in the proleptic
Gregorian calendar (negative before the epoch).  This is the quantity
`chrono` uses for `NaiveDate` comparison and whose difference
`(target - today).num_days()` returns; computed by the standard
civil-from-days formula over the shifted year starting in March. -/
def Date.toScalar (d : Date) : Int :=
  let y : Int := if d.month ≤ 2 then d.year - 1 else d.year
  let era : Int := Int.fdiv y 400
  let yoe : Int := y - era * 400
  let mp : Int := ((d.month : Int) + 9) % 12
  let doy : Int := Int.fdiv (153 * mp + 2) 5 + (d.day : Int) - 1
  let doe : Int := yoe * 365 + Int.fdiv yoe 4 - Int.fdiv yoe 100 + doy
  era * 146097 + doe - 719468

/-- Greedy numeric field scan: consume up to `max` leading ASCII digits,
returning the value read, how many digits were consumed, and the rest. -/
def takeDigits (max : Nat) (acc : Nat) (taken : Nat) :
    List Char → Nat × Nat × List Char
  | [] => (acc, taken, [])
  | ch :: rest =>
    if taken < max && ch.isDigit then
      takeDigits max (acc * 10 + (ch.toNat - 48)) (taken + 1) rest
    else
      (acc, taken, ch :: rest)

/-- Greedy unbounded numeric field scan: consume every leading ASCII digit,
returning the value read, how many digits were consumed, and the rest (the
width chrono gives a sign-prefixed year). -/
def takeDigitsUnbounded (acc : Nat) (taken : Nat) :
    List Char → Nat × Nat × List Char
  | [] => (acc, taken, [])
  | ch :: rest =>
    if ch.isDigit then
      takeDigitsUnbounded (acc * 10 + (ch.toNat - 48)) (taken + 1) rest
    else
      (acc, taken, ch :: rest)

/-- The Unicode White_Space code points, the set Rust's `str::trim_start`
(which chrono applies before scanning each numeric item) removes. -/
def isRustWhitespace (c : Char) : Bool :=
  (0x09 ≤ c.toNat && c.toNat ≤ 0x0D) || c.toNat == 0x20 || c.toNat == 0x85
  || c.toNat == 0xA0 || c.toNat == 0x1680
  || (0x2000 ≤ c.toNat && c.toNat ≤ 0x200A)
  || c.toNat == 0x2028 || c.toNat == 0x2029 || c.toNat == 0x202F
  || c.toNat == 0x205F || c.toNat == 0x3000

/-- Drop leading whitespace characters (Rust `str::trim_start`). -/
def trimStart : List Char → List Char
  | [] => []
  | c :: cs => if isRustWhitespace c then trimStart cs else c :: cs

/-- The year field of chrono's `%Y` specifier: an optional `+` or `-` sign
directly followed by digits — every digit when a sign is present (chrono
gives signed years unbounded width; its scanner's `i64`-overflow failure is
subsumed by the range check in `Date.valid`, see there), at most four digits
when no sign is present.  Whitespace is NOT skipped here: chrono trims it
before the whole numeric item, i.e. before the sign (see `parseYmd`). -/
def parseYear (l : List Char) : Option (Int × List Char) :=
  match l with
  | '-' :: rest =>
    match takeDigitsUnbounded 0 0 rest with
    | (v, n, rest') => if 1 ≤ n then some (-(v : Int), rest') else none
  | '+' :: rest =>
    match takeDigitsUnbounded 0 0 rest with
    | (v, n, rest') => if 1 ≤ n then some ((v : Int), rest') else none
  | _ =>
    match takeDigits 4 0 0 l with
    | (v, n, rest') => if 1 ≤ n then some ((v : Int), rest') else none

/-- Modelled from `NaiveDate::parse_from_str(date_str, "%Y-%m-%d")`
(`weather_service.rs` line 74), following chrono's parser item by item:
before each numeric item (`%Y`, `%m`, `%d`) leading whitespace is trimmed;
`%Y` is an optionally signed year (signed: unbounded digits; unsigned: at
most four digits, greedy); the literal hyphens must match exactly, with no
trimming; `%m` and `%d` are unsigned fields of at most two digits each; the
whole string must be consumed (chrono rejects trailing input); and the
resulting numbers must form a valid in-range calendar date (`Date.valid`). -/
def parseYmd (s : String) : Option Date :=
  match parseYear (trimStart s.toList) with
  | none => none
  | some (y, rest₁) =>
    match rest₁ with
    | '-' :: rest₂ =>
      match takeDigits 2 0 0 (trimStart rest₂) with
      | (m, mn, rest₃) =>
        match rest₃ with
        | '-' :: rest₄ =>
          match takeDigits 2 0 0 (trimStart rest₄) with
          | (d, dn, rest₅) =>
            let date : Date := { year := y, month := m, day := d }
            if 1 ≤ mn && 1 ≤ dn && rest₅.isEmpty && date.valid then
              some date
            else
              none
        | _ => none
    | _ => none

/-- Embedding of `days_from_today` from `weather_service.rs` lines 73-86.  `Local::now()`
is ambient system time, modelled as the explicit `today` parameter.  A parse
failure is "invalid date format (expected YYYY-MM-DD)"; `target < today` is
"date is in the past"; otherwise the result is `(target - today).num_days()`
cast `as u32`.  The cast is modelled by `Int.toNat`: the difference is
non-negative on this branch, and for any two dates in `NaiveDate`'s range
(years -262144 to 262143, a span under 192 million days) it stays far below
`2^32`, so the Rust cast is value-preserving. -/
def days_from_today (today : Date) (date_str : String) : Except WeatherError Nat :=
  match parseYmd date_str with
  | none => .error .invalidDateFormat
  | some target =>
    if target.toScalar < today.toScalar then
      .error .dateInPast
    else
      .ok (target.toScalar - today.toScalar).toNat

/- ----------------------------------------------------------------- -/
/- Credentials store and weather service (`weather_service.rs`)       -/
/- ----------------------------------------------------------------- -/

/-- One invocation of a `CredentialsStore` trait method
(`credentials.rs` lines 24-47). -/
inductive StoreOp where
  | setCredentials (provider : Provider) (credentials : Credentials)
  | getCredentials (provider : Provider)
  | setDefaultProvider (provider : Provider)
  | getDefaultProvider
deriving DecidableEq, Repr

/-- Whether a store operation is one of the two read methods. -/
def StoreOp.isRead : StoreOp → Bool
  | .getCredentials _ => true
  | .getDefaultProvider => true
  | .setCredentials _ _ => false
  | .setDefaultProvider _ => false

/-- The data a `CredentialsStore` implementation holds: per-provider
credentials and an optional default provider. -/
structure StoreData where
  credentials : Provider → Option Credentials
  default_provider : Option Provider

/-- The state transition a store operation performs on the store's data:
the two set methods update it, the two get methods leave it unchanged. -/
def StoreOp.apply (op : StoreOp) (s : StoreData) : StoreData :=
  match op with
  | .setCredentials p c =>
    { s with credentials := fun q => if q = p then some c else s.credentials q }
  | .setDefaultProvider p => { s with default_provider := some p }
  | .getCredentials _ => s
  | .getDefaultProvider => s

/-- A `CredentialsStore` as the weather service sees it: the outcome of each
read it may perform (each read is an `anyhow::Result` and may itself fail). -/
structure CredentialsStore where
  get_credentials : Provider → Except StoreError (Option Credentials)
  get_default_provider : Except StoreError (Option Provider)

/-- Embedding of `WeatherService::resolve_provider` from `weather_service.rs` lines 56-70:
an override provider is returned as-is; otherwise the stored default is read,
its absence being the "No provider specified and no default provider set"
error.  Alongside the result, the store operations performed are returned:
none on the override path, one `getDefaultProvider` read otherwise. -/
def resolve_provider (store : CredentialsStore) (provider : Option Provider) :
    Except WeatherError Provider × List StoreOp :=
  match provider with
  | some p => (.ok p, [])
  | none =>
    match store.get_default_provider with
    | .error e => (.error (.storeReadError e), [.getDefaultProvider])
    | .ok none => (.error .noProviderConfigured, [.getDefaultProvider])
    | .ok (some p) => (.ok p, [.getDefaultProvider])

/-- Embedding of `WeatherService::get_weather` from `weather_service.rs` lines 26-54, with
`Local::now()` modelled by the `today` parameter and the HTTP layer by the
two transports.  In source order: date → `days_from_today` (or 0 when
absent); `resolve_provider`; `store.get_credentials` (read failure wrapped,
absence being the "No credentials found for provider" error);
`create_client`; the client's `get_weather`.  Alongside the result, the
store operations performed are returned. -/
def WeatherService.get_weather (store : CredentialsStore)
    (wt : WeatherApiTransport) (at_ : AccuWeatherTransport) (today : Date)
    (address : String) (date : Option String) (provider : Option Provider) :
    Except WeatherError WeatherReport × List StoreOp :=
  match (match date with
         | some d => days_from_today today d
         | none => .ok 0) with
  | .error e => (.error e, [])
  | .ok days =>
    match resolve_provider store provider with
    | (.error e, ops) => (.error e, ops)
    | (.ok p, ops) =>
      match store.get_credentials p with
      | .error e => (.error (.storeReadError e), ops ++ [.getCredentials p])
      | .ok none => (.error (.credentialsNotConfigured p), ops ++ [.getCredentials p])
      | .ok (some creds) =>
        match create_client p creds with
        | .error e => (.error e, ops ++ [.getCredentials p])
        | .ok client =>
          (client.get_weather wt at_ address days, ops ++ [.getCredentials p])

/- ----------------------------------------------------------------- -/
/- Concrete fixtures, used to evaluate the embedding on sample runs   -/
/- ----------------------------------------------------------------- -/

/-- A WeatherAPI forecast-day fixture. -/
def sampleWeatherApiDay (i : Nat) : WeatherApiForecastDay :=
  { date := "day " ++ toString i
    day := { maxtemp_c := 21.5
             mintemp_c := 11.5
             condition := { text := "Sunny" } } }

/-- A WeatherAPI response fixture carrying 15 forecast days, enough for any
offset the horizon check lets through. -/
def sampleWeatherApiResponse : WeatherApiResponse :=
  { location := { name := "Kyiv", country := "Ukraine" }
    forecast := { forecastday := (List.range 15).map sampleWeatherApiDay } }

/-- A WeatherAPI transport that answers every request with
`sampleWeatherApiResponse`. -/
def sampleWeatherApiTransport : WeatherApiTransport :=
  fun _ => .ok sampleWeatherApiResponse

/-- First AccuWeather candidate-location fixture. -/
def sampleAccuLocationA : AccuWeatherLocationResponse :=
  { key := "111", localized_name := "Lviv A", country := { localized_name := "Ukraine" } }

/-- Second AccuWeather candidate-location fixture. -/
def sampleAccuLocationB : AccuWeatherLocationResponse :=
  { key := "222", localized_name := "Lviv B", country := { localized_name := "Ukraine" } }

/-- An AccuWeather daily-forecast fixture. -/
def sampleAccuDay (i : Nat) : AccuWeatherDailyForecastResponse :=
  { date := "2026-10-" ++ toString (12 + i)
    temperature := { minimum := { value := 10.5 }, maximum := { value := 20.5 } }
    day := { icon_prase := "Sunny" }
    night := { icon_prase := "Clear" } }

/-- An AccuWeather forecast response fixture with 5 daily forecasts. -/
def sampleAccuForecastResponse : AccuWeatherForecastResponse :=
  { daily_forecasts :=
      [sampleAccuDay 0, sampleAccuDay 1, sampleAccuDay 2, sampleAccuDay 3, sampleAccuDay 4] }

/-- An AccuWeather transport whose location search returns two candidates and
whose forecast endpoint returns `sampleAccuForecastResponse`. -/
def sampleAccuTransport : AccuWeatherTransport :=
  { search := fun _ _ => .ok [sampleAccuLocationA, sampleAccuLocationB]
    forecast := fun _ _ => .ok sampleAccuForecastResponse }

/-- A store fixture: AccuWeather credentials present, default provider set to
AccuWeather. -/
def sampleStore : CredentialsStore :=
  { get_credentials := fun p =>
      match p with
      | .accuWeather => .ok (some (.accuWeather "accu-key"))
      | .weatherApi => .ok none
    get_default_provider := .ok (some .accuWeather) }

/-- A store-data fixture for exercising `StoreOp.apply`. -/
def sampleStoreData : StoreData :=
  { credentials := fun _ => none, default_provider := some .weatherApi }

/- ----------------------------------------------------------------- -/
/- Theorems                                                           -/
/- ----------------------------------------------------------------- -/

/-- C10: `Provider::get_url(WeatherApi)` is the OpenWeatherMap URL, which
differs from the base URL the WeatherApi client actually uses, while
`Provider::get_url(AccuWeather)` equals the AccuWeather client's base URL:
`get_url` is inconsistent with the WeatherApi client's endpoint. -/
theorem c10_get_url_inconsistent (api_key : String) :
    Provider.get_url .weatherApi = "https://api.openweathermap.org/data/2.5/"
    ∧ Provider.get_url .weatherApi ≠ (WeatherApiClient.new api_key).url
    ∧ (WeatherApiClient.new api_key).url = "https://api.weatherapi.com/v1/"
    ∧ Provider.get_url .accuWeather = (AccuWeatherClient.new api_key).url := by
  refine ⟨rfl, ?_, rfl, rfl⟩
  exact (by decide :
    ("https://api.openweathermap.org/data/2.5/" : String) ≠ "https://api.weatherapi.com/v1/")

/-- C7: `create_client` succeeds exactly on the matched pairings, returning
the corresponding concrete client built from the supplied key; every
mismatched pairing fails with the credentials-mismatch error naming the
requested provider, and no client is constructed. -/
theorem c7_create_client_pairings (provider : Provider) (credentials : Credentials) :
    (∀ k, provider = .weatherApi → credentials = .weatherApi k →
      create_client provider credentials = .ok (.weatherApi (WeatherApiClient.new k)))
    ∧ (∀ k, provider = .accuWeather → credentials = .accuWeather k →
      create_client provider credentials = .ok (.accuWeather (AccuWeatherClient.new k)))
    ∧ (credentials.provider ≠ provider →
      create_client provider credentials = .error (.credentialsProviderMismatch provider)) := by
  refine ⟨?_, ?_, ?_⟩
  · rintro k rfl rfl; rfl
  · rintro k rfl rfl; rfl
  · intro h
    cases provider <;> cases credentials <;>
      simp_all [create_client, Credentials.provider]

/-- Witness for C7 at concrete inputs: the matched WeatherApi pairing
succeeds, and the (WeatherApi, AccuWeather-credentials) pairing fails with
the mismatch error naming WeatherApi. -/
theorem c7_create_client_pairings_witness :
    create_client .weatherApi (.weatherApi "wkey")
      = .ok (.weatherApi (WeatherApiClient.new "wkey"))
    ∧ create_client .weatherApi (.accuWeather "akey")
      = .error (.credentialsProviderMismatch .weatherApi) :=
  ⟨(c7_create_client_pairings .weatherApi (.weatherApi "wkey")).1 "wkey" rfl rfl,
   (c7_create_client_pairings .weatherApi (.accuWeather "akey")).2.2 (by decide)⟩

/-- C8: `resolve_provider` uses the override when given, performing no store
read at all; otherwise it returns the stored default when one exists, and
fails with the no-provider-configured error when the store has none. -/
theorem c8_resolve_provider_policy (store : CredentialsStore) (override : Option Provider) :
    (∀ p, override = some p → resolve_provider store override = (.ok p, []))
    ∧ (override = none → ∀ p, store.get_default_provider = .ok (some p) →
      resolve_provider store override = (.ok p, [.getDefaultProvider]))
    ∧ (override = none → store.get_default_provider = .ok none →
      resolve_provider store override = (.error .noProviderConfigured, [.getDefaultProvider])) := by
  refine ⟨?_, ?_, ?_⟩
  · rintro p rfl; rfl
  · rintro rfl p h
    simp [resolve_provider, h]
  · rintro rfl h
    simp [resolve_provider, h]

/-- Witness for C8 at concrete inputs: with `sampleStore` (stored default
AccuWeather), an override of WeatherApi is used with no store read, and no
override yields the stored default. -/
theorem c8_resolve_provider_policy_witness :
    resolve_provider sampleStore (some .weatherApi) = (.ok .weatherApi, [])
    ∧ resolve_provider sampleStore none = (.ok .accuWeather, [.getDefaultProvider]) :=
  ⟨(c8_resolve_provider_policy sampleStore (some .weatherApi)).1 .weatherApi rfl,
   (c8_resolve_provider_policy sampleStore none).2.1 rfl .accuWeather rfl⟩

/-- C6: in `get_location_key`, whenever the location search decodes to a
candidate list, an empty list fails with the address-not-found error and a
non-empty list resolves to its LAST element. -/
theorem c6_location_key_last (c : AccuWeatherClient) (t : AccuWeatherTransport)
    (address : String) (locations : List AccuWeatherLocationResponse)
    (h : t.search c.api_key address = .ok locations) :
    (locations = [] → c.get_location_key t address = .error .addressNotFound)
    ∧ (∀ location, locations.getLast? = some location →
      c.get_location_key t address = .ok location) := by
  constructor
  · rintro rfl
    simp [AccuWeatherClient.get_location_key, h]
  · intro location hl
    simp [AccuWeatherClient.get_location_key, h, hl]

/-- Witness for C6 at concrete inputs: with the two-candidate sample
transport, `get_location_key` resolves to the second (last) candidate. -/
theorem c6_location_key_last_witness :
    (AccuWeatherClient.new "akey").get_location_key sampleAccuTransport "Lviv"
      = .ok sampleAccuLocationB :=
  (c6_location_key_last (AccuWeatherClient.new "akey") sampleAccuTransport "Lviv"
    [sampleAccuLocationA, sampleAccuLocationB] rfl).2 sampleAccuLocationB rfl

/-- C1 counterexample: the claim says `day_offset = 14` succeeds, but on the
code `days = 14 + 1 = 15 > 14`, so the call fails with the horizon error even
against a transport whose response carries 15 forecast days. -/
theorem c1_counterexample_offset14 :
    (WeatherApiClient.new "wkey").get_weather sampleWeatherApiTransport
      "Kyiv, Ukraine" 14
      = .error (.horizonExceeded weatherApiHorizonMsg) := rfl

/-- C1 (amended): the WeatherApi horizon check rejects exactly the offsets
with `days = day_offset + 1 > 14`: every offset above 13 fails with
`HorizonExceeded`, no offset up to 13 can produce `HorizonExceeded`, and
offset 13 (the horizon boundary) succeeds whenever the transport's response
carries enough forecast days. -/
theorem c1_weather_api_horizon (c : WeatherApiClient) (t : WeatherApiTransport)
    (address : String) (d : Nat) :
    (14 < d + 1 →
      c.get_weather t address d = .error (.horizonExceeded weatherApiHorizonMsg))
    ∧ (d + 1 ≤ 14 → ∀ e, c.get_weather t address d ≠ .error (.horizonExceeded e))
    ∧ (d + 1 ≤ 14 → ∀ resp,
      t { key := c.api_key, q := address, days := d + 1 } = .ok resp →
      d < resp.forecast.forecastday.length →
      ∃ r, c.get_weather t address d = .ok r) := by
  refine ⟨?_, ?_, ?_⟩
  · intro h
    simp [WeatherApiClient.get_weather, h]
  · intro h e
    have h' : ¬ d + 1 > 14 := by omega
    simp only [WeatherApiClient.get_weather, h', if_false]
    cases ht : t { key := c.api_key, q := address, days := d + 1 } with
    | error e' => simp
    | ok body =>
      cases hg : body.forecast.forecastday[d]? with
      | none => simp [hg]
      | some forecast => simp [hg]
  · intro h resp ht hlen
    have h' : ¬ d + 1 > 14 := by omega
    simp [WeatherApiClient.get_weather, h', ht, List.getElem?_eq_getElem hlen]

/-- Witness for C1 at the concrete boundary inputs: offset 14 fails with the
horizon error and offset 13 succeeds against the 15-day sample transport. -/
theorem c1_weather_api_horizon_witness :
    (WeatherApiClient.new "wkey").get_weather sampleWeatherApiTransport
      "Kyiv, Ukraine" 14
      = .error (.horizonExceeded weatherApiHorizonMsg)
    ∧ ∃ r, (WeatherApiClient.new "wkey").get_weather sampleWeatherApiTransport
      "Kyiv, Ukraine" 13 = .ok r :=
  ⟨(c1_weather_api_horizon (WeatherApiClient.new "wkey") sampleWeatherApiTransport
      "Kyiv, Ukraine" 14).1 (by decide),
   (c1_weather_api_horizon (WeatherApiClient.new "wkey") sampleWeatherApiTransport
      "Kyiv, Ukraine" 13).2.2 (by decide) sampleWeatherApiResponse rfl (by decide)⟩

/-- Helper: the only errors `get_location_key` can produce are wrapped
transport failures and the address-not-found error. -/
theorem get_location_key_error_cases (c : AccuWeatherClient) (t : AccuWeatherTransport)
    (address : String) (e : WeatherError)
    (h : c.get_location_key t address = .error e) :
    (∃ te, e = .transport te) ∨ e = .addressNotFound := by
  unfold AccuWeatherClient.get_location_key at h
  cases hs : t.search c.api_key address with
  | error te =>
    simp only [hs] at h
    injection h with h
    exact Or.inl ⟨te, h.symm⟩
  | ok body =>
    simp only [hs] at h
    cases hg : body.getLast? with
    | none =>
      simp only [hg] at h
      injection h with h
      exact Or.inr h.symm
    | some location_key =>
      simp only [hg] at h
      exact absurd h (by simp)

/-- C2: the AccuWeather horizon check accepts offset 4 and rejects offset 5:
every offset with `days = day_offset + 1 > 5` fails with `HorizonExceeded`
while both transport call counters stay at zero (no location search, no
forecast call), and no offset up to 4 can produce `HorizonExceeded`. -/
theorem c2_accu_weather_horizon (c : AccuWeatherClient) (t : AccuWeatherTransport)
    (address : String) (d : Nat) :
    (5 < d + 1 →
      c.get_weather t address d = (.error (.horizonExceeded accuWeatherHorizonMsg), 0, 0))
    ∧ (d + 1 ≤ 5 → ∀ e, (c.get_weather t address d).1 ≠ .error (.horizonExceeded e)) := by
  constructor
  · intro h
    simp [AccuWeatherClient.get_weather, h]
  · intro h e
    have h' : ¬ d + 1 > 5 := by omega
    simp only [AccuWeatherClient.get_weather, h', if_false]
    cases hl : c.get_location_key t address with
    | error e' =>
      rcases get_location_key_error_cases c t address e' hl with ⟨te, rfl⟩ | rfl <;> simp
    | ok location =>
      cases hf : t.forecast c.api_key location.key with
      | error e'' => simp [hf]
      | ok body =>
        cases hg : body.daily_forecasts[d]? with
        | none => simp [hf, hg]
        | some forecast => simp [hf, hg]

/-- Witness for C2 at the concrete boundary inputs: offset 5 fails with the
horizon error and zero transport calls, and offset 4 does not produce the
horizon error against the sample transport. -/
theorem c2_accu_weather_horizon_witness :
    (AccuWeatherClient.new "akey").get_weather sampleAccuTransport "Lviv" 5
      = (.error (.horizonExceeded accuWeatherHorizonMsg), 0, 0)
    ∧ ((AccuWeatherClient.new "akey").get_weather sampleAccuTransport "Lviv" 4).1
      ≠ .error (.horizonExceeded accuWeatherHorizonMsg) :=
  ⟨(c2_accu_weather_horizon (AccuWeatherClient.new "akey") sampleAccuTransport
      "Lviv" 5).1 (by decide),
   (c2_accu_weather_horizon (AccuWeatherClient.new "akey") sampleAccuTransport
      "Lviv" 4).2 (by decide) accuWeatherHorizonMsg⟩

/-- Helper: a successful AccuWeather `get_weather` decomposes into a resolved
location (the last search candidate), a decoded forecast body, and the body's
entry at the requested offset, with the report built by `accuWeatherReport`
from that location and entry. -/
theorem accu_get_weather_ok_cases (c : AccuWeatherClient) (t : AccuWeatherTransport)
    (address : String) (d : Nat) (r : WeatherReport)
    (h : (c.get_weather t address d).1 = .ok r) :
    ∃ locations location body forecast,
      t.search c.api_key address = .ok locations
      ∧ locations.getLast? = some location
      ∧ t.forecast c.api_key location.key = .ok body
      ∧ body.daily_forecasts[d]? = some forecast
      ∧ r = accuWeatherReport location forecast := by
  by_cases h5 : d + 1 > 5
  · simp [AccuWeatherClient.get_weather, h5] at h
  · simp only [AccuWeatherClient.get_weather, h5, if_false] at h
    cases hs : t.search c.api_key address with
    | error te =>
      simp only [AccuWeatherClient.get_location_key, hs] at h
      simp at h
    | ok locations =>
      cases hg : locations.getLast? with
      | none =>
        simp only [AccuWeatherClient.get_location_key, hs, hg] at h
        simp at h
      | some location =>
        simp only [AccuWeatherClient.get_location_key, hs, hg] at h
        cases hf : t.forecast c.api_key location.key with
        | error te =>
          simp only [hf] at h
          simp at h
        | ok body =>
          simp only [hf] at h
          cases hd : body.daily_forecasts[d]? with
          | none =>
            simp only [hd] at h
            simp at h
          | some forecast =>
            simp only [hd] at h
            injection h with h
            exact ⟨locations, location, body, forecast, rfl, hg, hf, hd, h.symm⟩

/-- C4: every successful AccuWeather `get_weather` cross-assigns the selected
forecast day's temperatures: the report's `max_temperature` copies
`Temperature.Minimum.Value` and its `min_temperature` copies
`Temperature.Maximum.Value`. -/
theorem c4_accu_weather_cross_assigned_temperatures (c : AccuWeatherClient)
    (t : AccuWeatherTransport) (address : String) (d : Nat) (r : WeatherReport)
    (h : (c.get_weather t address d).1 = .ok r) :
    ∃ (location : AccuWeatherLocationResponse) (body : AccuWeatherForecastResponse)
      (forecast : AccuWeatherDailyForecastResponse),
      t.forecast c.api_key location.key = .ok body
      ∧ body.daily_forecasts[d]? = some forecast
      ∧ r.max_temperature = forecast.temperature.minimum.value
      ∧ r.min_temperature = forecast.temperature.maximum.value := by
  rcases accu_get_weather_ok_cases c t address d r h with
    ⟨locations, location, body, forecast, _, _, hf, hd, rfl⟩
  exact ⟨location, body, forecast, hf, hd, rfl, rfl⟩

/-- Witness for C4 at concrete inputs: a successful run against the sample
transport at offset 4 selects `sampleAccuDay 4` and copies its Minimum value
into `max_temperature` and its Maximum value into `min_temperature`. -/
theorem c4_accu_weather_cross_assigned_temperatures_witness :
    ∃ (location : AccuWeatherLocationResponse) (body : AccuWeatherForecastResponse)
      (forecast : AccuWeatherDailyForecastResponse),
      sampleAccuTransport.forecast (AccuWeatherClient.new "akey").api_key location.key
        = .ok body
      ∧ body.daily_forecasts[(4 : Nat)]? = some forecast
      ∧ (accuWeatherReport sampleAccuLocationB (sampleAccuDay 4)).max_temperature
        = forecast.temperature.minimum.value
      ∧ (accuWeatherReport sampleAccuLocationB (sampleAccuDay 4)).min_temperature
        = forecast.temperature.maximum.value :=
  c4_accu_weather_cross_assigned_temperatures (AccuWeatherClient.new "akey")
    sampleAccuTransport "Lviv" 4 (accuWeatherReport sampleAccuLocationB (sampleAccuDay 4))
    rfl

/-- C5: every successful AccuWeather `get_weather` tags the report with the
`WeatherApi` provider identifier, not `AccuWeather`. -/
theorem c5_accu_weather_report_provider_tag (c : AccuWeatherClient)
    (t : AccuWeatherTransport) (address : String) (d : Nat) (r : WeatherReport)
    (h : (c.get_weather t address d).1 = .ok r) :
    r.provider = .weatherApi ∧ r.provider ≠ .accuWeather := by
  rcases accu_get_weather_ok_cases c t address d r h with
    ⟨locations, location, body, forecast, _, _, _, _, rfl⟩
  exact ⟨rfl, (by decide : Provider.weatherApi ≠ Provider.accuWeather)⟩

/-- Witness for C5 at concrete inputs: the report of a successful run against
the sample transport at offset 0 is tagged with the WeatherApi provider. -/
theorem c5_accu_weather_report_provider_tag_witness :
    (accuWeatherReport sampleAccuLocationB (sampleAccuDay 0)).provider = .weatherApi
    ∧ (accuWeatherReport sampleAccuLocationB (sampleAccuDay 0)).provider ≠ .accuWeather :=
  c5_accu_weather_report_provider_tag (AccuWeatherClient.new "akey")
    sampleAccuTransport "Lviv" 0 (accuWeatherReport sampleAccuLocationB (sampleAccuDay 0))
    rfl

/-- C3: `days_from_today` maps every string parsing to a date on or after
`today` to exactly the day difference `target - today` (so `today` itself
maps to 0), every string parsing to an earlier date to the date-in-past
error, and every non-parsing string to the invalid-date-format error. -/
theorem c3_days_from_today_spec (today : Date) (s : String) :
    (∀ d, parseYmd s = some d → today.toScalar ≤ d.toScalar →
      ∃ n, days_from_today today s = .ok n ∧ (n : Int) = d.toScalar - today.toScalar)
    ∧ (∀ d, parseYmd s = some d → d.toScalar < today.toScalar →
      days_from_today today s = .error .dateInPast)
    ∧ (parseYmd s = none → days_from_today today s = .error .invalidDateFormat) := by
  refine ⟨?_, ?_, ?_⟩
  · intro d hp hle
    have h' : ¬ d.toScalar < today.toScalar := not_lt.mpr hle
    refine ⟨(d.toScalar - today.toScalar).toNat, ?_, ?_⟩
    · simp [days_from_today, hp, h']
    · exact Int.toNat_of_nonneg (by omega)
  · intro d hp hlt
    simp [days_from_today, hp, hlt]
  · intro hp
    simp [days_from_today, hp]

/-- Witness for C3 at concrete inputs, with today fixed to 2026-10-12: a
15-days-ahead date string yields exactly the 15-day difference, the string
for the previous day is the date-in-past error, a slash-separated string is
the invalid-format error, today's own string maps to offset 0, and the
chrono-accepted variants — a plus-signed year, a negative year, and leading
whitespace — parse and classify by the same date rules. -/
theorem c3_days_from_today_spec_witness :
    (∃ n, days_from_today ⟨2026, 10, 12⟩ "2026-10-27" = .ok n
      ∧ (n : Int) = (Date.mk 2026 10 27).toScalar - (Date.mk 2026 10 12).toScalar)
    ∧ days_from_today ⟨2026, 10, 12⟩ "2026-10-11" = .error .dateInPast
    ∧ days_from_today ⟨2026, 10, 12⟩ "2026/10/27" = .error .invalidDateFormat
    ∧ (∃ n, days_from_today ⟨2026, 10, 12⟩ "2026-10-12" = .ok n
      ∧ (n : Int) = (Date.mk 2026 10 12).toScalar - (Date.mk 2026 10 12).toScalar)
    ∧ (∃ n, days_from_today ⟨2026, 10, 12⟩ "+2026-10-27" = .ok n
      ∧ (n : Int) = (Date.mk 2026 10 27).toScalar - (Date.mk 2026 10 12).toScalar)
    ∧ days_from_today ⟨2026, 10, 12⟩ "-0001-02-03" = .error .dateInPast
    ∧ (∃ n, days_from_today ⟨2026, 10, 12⟩ " 2026-10-27" = .ok n
      ∧ (n : Int) = (Date.mk 2026 10 27).toScalar - (Date.mk 2026 10 12).toScalar) :=
  ⟨(c3_days_from_today_spec ⟨2026, 10, 12⟩ "2026-10-27").1 ⟨2026, 10, 27⟩
      (by decide) (by decide),
   (c3_days_from_today_spec ⟨2026, 10, 12⟩ "2026-10-11").2.1 ⟨2026, 10, 11⟩
      (by decide) (by decide),
   (c3_days_from_today_spec ⟨2026, 10, 12⟩ "2026/10/27").2.2 (by decide),
   (c3_days_from_today_spec ⟨2026, 10, 12⟩ "2026-10-12").1 ⟨2026, 10, 12⟩
      (by decide) (by decide),
   (c3_days_from_today_spec ⟨2026, 10, 12⟩ "+2026-10-27").1 ⟨2026, 10, 27⟩
      (by decide) (by decide),
   (c3_days_from_today_spec ⟨2026, 10, 12⟩ "-0001-02-03").2.1 ⟨-1, 2, 3⟩
      (by decide) (by decide),
   (c3_days_from_today_spec ⟨2026, 10, 12⟩ " 2026-10-27").1 ⟨2026, 10, 27⟩
      (by decide) (by decide)⟩

/-- Helper: the store-operation trace of a weather-service call is one of
four lists: empty, a lone default-provider read, a lone credentials read, or
a default-provider read followed by a credentials read. -/
theorem service_store_ops_cases (store : CredentialsStore) (wt : WeatherApiTransport)
    (at_ : AccuWeatherTransport) (today : Date) (address : String)
    (date : Option String) (provider : Option Provider) :
    (WeatherService.get_weather store wt at_ today address date provider).2 = []
    ∨ (WeatherService.get_weather store wt at_ today address date provider).2
      = [StoreOp.getDefaultProvider]
    ∨ (∃ p, (WeatherService.get_weather store wt at_ today address date provider).2
      = [StoreOp.getCredentials p])
    ∨ (∃ p, (WeatherService.get_weather store wt at_ today address date provider).2
      = [StoreOp.getDefaultProvider, StoreOp.getCredentials p]) := by
  unfold WeatherService.get_weather
  cases hd : (match date with
              | some d => days_from_today today d
              | none => Except.ok 0) with
  | error e => simp
  | ok days =>
    cases provider with
    | some p =>
      cases hc : store.get_credentials p with
      | error e =>
        exact Or.inr (Or.inr (Or.inl ⟨p, by simp [resolve_provider, hc]⟩))
      | ok creds? =>
        cases creds? with
        | none =>
          exact Or.inr (Or.inr (Or.inl ⟨p, by simp [resolve_provider, hc]⟩))
        | some creds =>
          cases hcl : create_client p creds with
          | error e =>
            exact Or.inr (Or.inr (Or.inl ⟨p, by simp [resolve_provider, hc, hcl]⟩))
          | ok client =>
            exact Or.inr (Or.inr (Or.inl ⟨p, by simp [resolve_provider, hc, hcl]⟩))
    | none =>
      cases hdp : store.get_default_provider with
      | error e =>
        exact Or.inr (Or.inl (by simp [resolve_provider, hdp]))
      | ok p? =>
        cases p? with
        | none =>
          exact Or.inr (Or.inl (by simp [resolve_provider, hdp]))
        | some p =>
          cases hc : store.get_credentials p with
          | error e =>
            exact Or.inr (Or.inr (Or.inr ⟨p, by simp [resolve_provider, hdp, hc]⟩))
          | ok creds? =>
            cases creds? with
            | none =>
              exact Or.inr (Or.inr (Or.inr ⟨p, by simp [resolve_provider, hdp, hc]⟩))
            | some creds =>
              cases hcl : create_client p creds with
              | error e =>
                exact Or.inr (Or.inr (Or.inr ⟨p, by simp [resolve_provider, hdp, hc, hcl]⟩))
              | ok client =>
                exact Or.inr (Or.inr (Or.inr ⟨p, by simp [resolve_provider, hdp, hc, hcl]⟩))

/-- C9: every weather-service call, successful or not, performs only the two
read operations on the credentials store — every traced operation is a read,
and replaying the trace against any store data leaves it unchanged. -/
theorem c9_service_store_read_only (store : CredentialsStore) (wt : WeatherApiTransport)
    (at_ : AccuWeatherTransport) (today : Date) (address : String)
    (date : Option String) (provider : Option Provider) :
    (∀ op ∈ (WeatherService.get_weather store wt at_ today address date provider).2,
      op.isRead = true)
    ∧ ∀ s : StoreData,
      (WeatherService.get_weather store wt at_ today address date provider).2.foldl
        (fun s op => op.apply s) s = s := by
  rcases service_store_ops_cases store wt at_ today address date provider with
    h | h | ⟨p, h⟩ | ⟨p, h⟩ <;> rw [h]
  · exact ⟨by simp, fun s => rfl⟩
  · refine ⟨?_, fun s => rfl⟩
    intro op hop
    simp only [List.mem_singleton] at hop
    subst hop; rfl
  · refine ⟨?_, fun s => rfl⟩
    intro op hop
    simp only [List.mem_singleton] at hop
    subst hop; rfl
  · refine ⟨?_, fun s => rfl⟩
    intro op hop
    simp only [List.mem_cons, List.mem_singleton, List.not_mem_nil, or_false] at hop
    rcases hop with rfl | rfl <;> rfl

/-- Witness for C9 at concrete inputs: with `sampleStore`, no override and no
date, the traced operations are exactly a default-provider read followed by
a credentials read, both reads, and replaying them leaves `sampleStoreData`
unchanged. -/
theorem c9_service_store_read_only_witness :
    StoreOp.getDefaultProvider.isRead = true
    ∧ (StoreOp.getCredentials .accuWeather).isRead = true
    ∧ (WeatherService.get_weather sampleStore sampleWeatherApiTransport
        sampleAccuTransport ⟨2026, 10, 12⟩ "Lviv" none none).2.foldl
        (fun s op => op.apply s) sampleStoreData = sampleStoreData :=
  ⟨(c9_service_store_read_only sampleStore sampleWeatherApiTransport
      sampleAccuTransport ⟨2026, 10, 12⟩ "Lviv" none none).1
      StoreOp.getDefaultProvider (by decide),
   (c9_service_store_read_only sampleStore sampleWeatherApiTransport
      sampleAccuTransport ⟨2026, 10, 12⟩ "Lviv" none none).1
      (StoreOp.getCredentials .accuWeather) (by decide),
   (c9_service_store_read_only sampleStore sampleWeatherApiTransport
      sampleAccuTransport ⟨2026, 10, 12⟩ "Lviv" none none).2 sampleStoreData⟩

end Wezzapp
